import Mathlib

/-
  Verification development for the VaultFlow repository: a browser vault
  dashboard backed by a managed identity provider, document store and blob
  store.  The definitions below are a shallow embedding of the handlers in
  src/unnamed/part_000 (the live Firestore-backed dashboard component),
  src/pages/Dashboard.tsx (a mock dashboard variant holding local data) and
  src/components/AuthModal.tsx (the authentication modal).
-/

namespace VaultFlow

/-- Mirrors the JS idiom (s or default): an empty string is falsy, so the
default is used exactly when the submitted string is empty. -/
def strOr (s d : String) : String :=
  if s = "" then d else s

/-- Tests whether the second list is a leading segment of the first. -/
def listStartsWith : List Char → List Char → Bool
  | _, [] => true
  | [], _ :: _ => false
  | a :: as, b :: bs => a = b && listStartsWith as bs

/-- Tests whether the second list occurs contiguously inside the first, the
semantics of the JS String.includes method on character sequences. -/
def listContains : List Char → List Char → Bool
  | [], q => q.isEmpty
  | a :: rest, q => listStartsWith (a :: rest) q || listContains rest q

/-- Case-insensitive substring test, mirroring
name.toLowerCase().includes(query.toLowerCase()) from part_000. -/
def includesCI (hay q : String) : Bool :=
  listContains (hay.toList.map Char.toLower) (q.toList.map Char.toLower)

/- ### Local data model (interfaces of src/unnamed/part_000, lines 31-60) -/

/-- FileItem interface of part_000; createdAt timestamps are modelled as Nat
seconds. -/
structure FileItem where
  id : String
  name : String
  size : Nat
  type : String
  folderId : Option String
  storagePath : String
  downloadURL : String
  createdAt : Nat
deriving Repr, DecidableEq

/-- FolderItem interface of part_000. -/
structure FolderItem where
  id : String
  name : String
  createdAt : Nat
deriving Repr, DecidableEq

/-- NoteItem interface of part_000. -/
structure NoteItem where
  id : String
  title : String
  content : String
  createdAt : Nat
deriving Repr, DecidableEq

/-- MemberItem interface of part_000. -/
structure MemberItem where
  id : String
  name : String
  role : String
  createdAt : Nat
deriving Repr, DecidableEq

/- ### Remote document store and blob store -/

/-- The per-user remote document store: the four subcollections that part_000
writes through addDoc and deleteDoc.  Documents are modelled with the exact
fields each addDoc call writes. -/
structure RemoteDB where
  folders : List FolderItem
  files : List FileItem
  notes : List NoteItem
  members : List MemberItem
deriving Repr, DecidableEq

/-- The file chosen in the file input (the File object the browser hands to
setSelectedFile). -/
structure SelectedFile where
  name : String
  size : Nat
  type : String
deriving Repr, DecidableEq

/-- The modal discriminator of part_000 (modalOpen.type). -/
inductive ModalType
  | folder
  | file
  | note
  | member
deriving Repr, DecidableEq

/-- The collection names used by deleteConfirmation.type in part_000. -/
inductive DeleteTarget
  | folders
  | files
  | notes
  | teamMembers
deriving Repr, DecidableEq

/-- Collection-path segment of each delete target, as interpolated into
users/uid/type by confirmDeletion. -/
def DeleteTarget.collName : DeleteTarget → String
  | .folders => "folders"
  | .files => "files"
  | .notes => "notes"
  | .teamMembers => "teamMembers"

/-- The deleteConfirmation record of part_000 (lines 92-97). -/
structure DeleteConfirmation where
  id : String
  target : DeleteTarget
  name : String
  storagePath : Option String
deriving Repr, DecidableEq

/-- The formData record of part_000 (lines 101-106). -/
structure FormData where
  name : String
  title : String
  content : String
  role : String
deriving Repr, DecidableEq

/-- The reset value assigned to formData after a successful create. -/
def FormData.empty : FormData :=
  { name := "", title := "", content := "", role := "Viewer" }

/-- State of the live dashboard component in part_000: the four local
collection arrays fed by the snapshot listeners, the UI state the claims
mention, the remote document store and the set of blob paths present in
storage. -/
structure DashState where
  user : Option String
  folders : List FolderItem
  files : List FileItem
  notes : List NoteItem
  members : List MemberItem
  currentFolderId : Option String
  searchQuery : String
  modalOpen : Option ModalType
  deleteConfirmation : Option DeleteConfirmation
  selectedFile : Option SelectedFile
  formData : FormData
  isUpgradeModalOpen : Bool
  isSubmitting : Bool
  uploadProgress : Nat
  remote : RemoteDB
  blobs : List String
deriving Repr, DecidableEq

/-- FILE_LIMIT constant of part_000 (line 71). -/
def FILE_LIMIT : Nat := 5

/-- Derived flag hasReachedLimit of part_000 (line 109): the local files
array has reached the limit. -/
def hasReachedLimit (s : DashState) : Bool :=
  FILE_LIMIT ≤ s.files.length

/-- Environment for one run of handleCreate: the generated document and file
ids, the server timestamp, the download URL the storage SDK returns, and
whether the resumable upload succeeds or errors. -/
structure CreateEnv where
  docId : String
  fileId : String
  now : Nat
  downloadURL : String
  uploadOk : Bool
deriving Repr, DecidableEq

/-- State updates shared by every successful branch of handleCreate (lines
219-222 of part_000): close the modal, reset the form, clear the selected
file and the progress bar; the finally block clears isSubmitting. -/
def finishCreate (s : DashState) : DashState :=
  { s with modalOpen := none, formData := FormData.empty,
           selectedFile := none, uploadProgress := 0, isSubmitting := false }

/-- Shallow embedding of handleCreate (part_000 lines 156-228).  Early
returns before the try block leave the state untouched; returns inside the
try block still run the finally block (isSubmitting := false).  An upload
error rejects the awaited promise, so control jumps to catch and no file
document is written. -/
def handleCreate (env : CreateEnv) (s : DashState) : DashState :=
  match s.user, s.modalOpen with
  | none, _ => s
  | some _, none => s
  | some uid, some mt =>
    let s1 : DashState := { s with isSubmitting := true }
    match mt with
    | .folder =>
      let d : FolderItem :=
        { id := env.docId, name := strOr s1.formData.name "Untitled Folder",
          createdAt := env.now }
      finishCreate
        { s1 with remote := { s1.remote with folders := s1.remote.folders ++ [d] } }
    | .file =>
      match s1.selectedFile with
      | none => { s1 with isSubmitting := false }
      | some sf =>
        if hasReachedLimit s1 then
          { s1 with isUpgradeModalOpen := true, isSubmitting := false }
        else
          let sp := "user_uploads/" ++ uid ++ "/" ++ env.fileId ++ "-" ++ sf.name
          if env.uploadOk then
            let d : FileItem :=
              { id := env.docId, name := sf.name, size := sf.size,
                type := sf.type, folderId := s1.currentFolderId,
                storagePath := sp, downloadURL := env.downloadURL,
                createdAt := env.now }
            finishCreate
              { s1 with blobs := s1.blobs ++ [sp],
                        remote := { s1.remote with files := s1.remote.files ++ [d] } }
          else
            { s1 with isSubmitting := false }
    | .note =>
      let d : NoteItem :=
        { id := env.docId, title := strOr s1.formData.title "Untitled Note",
          content := s1.formData.content, createdAt := env.now }
      finishCreate
        { s1 with remote := { s1.remote with notes := s1.remote.notes ++ [d] } }
    | .member =>
      let d : MemberItem :=
        { id := env.docId, name := s1.formData.name, role := s1.formData.role,
          createdAt := env.now }
      finishCreate
        { s1 with remote := { s1.remote with members := s1.remote.members ++ [d] } }

/-- Outcome of a remote SDK call that the code awaits under try. -/
inductive CallOutcome
  | ok
  | err
deriving Repr, DecidableEq

/-- Environment for one run of confirmDeletion: whether the blob-store
deleteObject call and the document-store deleteDoc call succeed. -/
structure DeleteEnv where
  blobDelete : CallOutcome
  docDelete : CallOutcome
deriving Repr, DecidableEq

/-- Remote operations issued by confirmDeletion, in issue order. -/
inductive DeleteEffect
  | deleteBlob (path : String)
  | deleteRecord (coll : String) (id : String)
deriving Repr, DecidableEq

/-- Removes the document with the given id from one remote collection, the
effect of a successful deleteDoc on users/uid/coll/id. -/
def RemoteDB.deleteRecord (db : RemoteDB) (t : DeleteTarget) (i : String) : RemoteDB :=
  match t with
  | .folders => { db with folders := db.folders.filter (fun d => d.id ≠ i) }
  | .files => { db with files := db.files.filter (fun d => d.id ≠ i) }
  | .notes => { db with notes := db.notes.filter (fun d => d.id ≠ i) }
  | .teamMembers => { db with members := db.members.filter (fun d => d.id ≠ i) }

/-- Shallow embedding of confirmDeletion (part_000 lines 230-246).  For a
file with a storage path the blob is deleted first; an error there jumps to
catch, skipping deleteDoc.  An error in deleteDoc leaves the record and the
confirmation in place.  The returned list records the remote calls issued,
in order. -/
def confirmDeletion (env : DeleteEnv) (s : DashState) :
    DashState × List DeleteEffect :=
  match s.user, s.deleteConfirmation with
  | none, _ => (s, [])
  | some _, none => (s, [])
  | some _, some dc =>
    let s1 : DashState := { s with isSubmitting := true }
    match dc.target, dc.storagePath with
    | .files, some p =>
      match env.blobDelete with
      | .err => ({ s1 with isSubmitting := false }, [.deleteBlob p])
      | .ok =>
        let s2 : DashState := { s1 with blobs := s1.blobs.filter (fun q => q ≠ p) }
        match env.docDelete with
        | .err =>
          ({ s2 with isSubmitting := false },
           [.deleteBlob p, .deleteRecord dc.target.collName dc.id])
        | .ok =>
          ({ s2 with remote := s2.remote.deleteRecord dc.target dc.id,
                     deleteConfirmation := none, isSubmitting := false },
           [.deleteBlob p, .deleteRecord dc.target.collName dc.id])
    | t, _ =>
      match env.docDelete with
      | .err =>
        ({ s1 with isSubmitting := false }, [.deleteRecord t.collName dc.id])
      | .ok =>
        ({ s1 with remote := s1.remote.deleteRecord t dc.id,
                   deleteConfirmation := none, isSubmitting := false },
         [.deleteRecord t.collName dc.id])

/- ### Rendering-side filters (part_000 lines 248-255 and renderNotes) -/

/-- The filteredFiles computation of part_000 (lines 248-251): scoped to the
current folder (root shows only files with no folder) and filtered by a
case-insensitive substring match on the name. -/
def filteredFiles (s : DashState) : List FileItem :=
  s.files.filter (fun f =>
    (match s.currentFolderId with
     | some cid => f.folderId = some cid
     | none => f.folderId = none) &&
    includesCI f.name s.searchQuery)

/-- The filteredFolders computation of part_000 (lines 253-255): folders are
shown only at the root, filtered by name. -/
def filteredFolders (s : DashState) : List FolderItem :=
  s.folders.filter (fun f =>
    s.currentFolderId = none && includesCI f.name s.searchQuery)

/-- The notes shown by renderNotes in part_000 (lines 432-455): the
component maps over the notes array itself, without applying searchQuery. -/
def displayedNotes (s : DashState) : List NoteItem :=
  s.notes

/-- Modelled from the spec: section 8 of spec.md states that search filtering
is a case-insensitive substring match on the title for notes.  This is the
behaviour the spec describes, for comparison with displayedNotes. -/
def specFilteredNotes (s : DashState) : List NoteItem :=
  s.notes.filter (fun n => includesCI n.title s.searchQuery)

/- ### Firestore listener queries (part_000 lines 112-148) -/

/-- A document of the backend store, as seen by a query: the collection path
it lives under, its generated id and its server-assigned creation time. -/
structure StoredDoc where
  collPath : String
  id : String
  createdAt : Nat
deriving Repr, DecidableEq

/-- Ordering relation of the orderBy createdAt desc clause: newest first. -/
def byCreatedAtDesc (a b : StoredDoc) : Prop :=
  b.createdAt ≤ a.createdAt

instance : DecidableRel byCreatedAtDesc :=
  fun a b => Nat.decLe b.createdAt a.createdAt

instance : IsTotal StoredDoc byCreatedAtDesc :=
  ⟨fun a b => Nat.le_total b.createdAt a.createdAt⟩

instance : IsTrans StoredDoc byCreatedAtDesc :=
  ⟨fun _ _ _ h1 h2 => Nat.le_trans h2 h1⟩

/-- Semantics of query(collection(db, path), orderBy(createdAt, desc)): the
documents of the named collection, ordered by creation time descending. -/
def runQuery (store : List StoredDoc) (path : String) : List StoredDoc :=
  List.insertionSort byCreatedAtDesc (store.filter (fun d => d.collPath = path))

/-- The four entity collections the dashboard listens to. -/
inductive EntityKind
  | folders
  | files
  | notes
  | teamMembers
deriving Repr, DecidableEq

/-- Collection-name segment each listener interpolates after basePath,
exactly as in part_000 lines 118, 124, 130 and 136. -/
def EntityKind.collName : EntityKind → String
  | .folders => "folders"
  | .files => "files"
  | .notes => "notes"
  | .teamMembers => "teamMembers"

/-- The basePath template of part_000 line 115: users/uid. -/
def basePath (uid : String) : String :=
  "users/" ++ uid

/-- The query each listener subscribes to for the signed-in user, from
part_000 lines 117-140. -/
def listenerQuery (store : List StoredDoc) (uid : String) (k : EntityKind) :
    List StoredDoc :=
  runQuery store (basePath uid ++ "/" ++ EntityKind.collName k)

/- ### Mock dashboard of src/pages/Dashboard.tsx -/

/-- FolderItem interface of the mock dashboard (lines 27-32): folders there
carry a parentId. -/
structure MockFolder where
  id : String
  name : String
  parentId : Option String
  createdAt : Nat
deriving Repr, DecidableEq

/-- FileItem interface of the mock dashboard (lines 16-25). -/
structure MockFile where
  id : String
  name : String
  size : Nat
  type : String
  mimeType : String
  folderId : Option String
  downloadURL : String
  createdAt : Nat
deriving Repr, DecidableEq

/-- Modal discriminator of the mock dashboard (folder or file only). -/
inductive MockModalType
  | folder
  | file
deriving Repr, DecidableEq

/-- Local state of the mock dashboard component: the folders and files
arrays live in component state, with no backend listeners. -/
structure MockState where
  folders : List MockFolder
  files : List MockFile
  modalOpen : Option MockModalType
  currentFolder : Option MockFolder
  newItemName : String
  selectedFile : Option SelectedFile
  isSubmitting : Bool
deriving Repr, DecidableEq

/-- Environment of one run of the mock handleCreate: the Date.now based id
and timestamp. -/
structure MockEnv where
  id : String
  now : Nat
deriving Repr, DecidableEq

/-- Shallow embedding of handleCreate in src/pages/Dashboard.tsx lines
74-106: the new folder or file is prepended directly to the local state
array. -/
def mockHandleCreate (env : MockEnv) (s : MockState) : MockState :=
  let s1 : MockState := { s with isSubmitting := true }
  let s2 : MockState :=
    match s1.modalOpen, s1.selectedFile with
    | some .folder, _ =>
      let d : MockFolder :=
        { id := env.id, name := strOr s1.newItemName "Untitled Folder",
          parentId := (s1.currentFolder.map MockFolder.id),
          createdAt := env.now }
      { s1 with folders := d :: s1.folders }
    | some .file, some sf =>
      let d : MockFile :=
        { id := env.id, name := strOr s1.newItemName sf.name, size := sf.size,
          type := if (sf.type.toList).take 6 = "image/".toList
                  then "image" else "doc",
          mimeType := sf.type,
          folderId := (s1.currentFolder.map MockFolder.id),
          downloadURL := "#", createdAt := env.now }
      { s1 with files := d :: s1.files }
    | _, _ => s1
  { s2 with modalOpen := none, isSubmitting := false, newItemName := "" }

/- ### Authentication modal (src/components/AuthModal.tsx) -/

/-- A user record returned by the identity provider on a successful
authentication. -/
structure AuthUser where
  email : String
  emailVerified : Bool
deriving Repr, DecidableEq

/-- Calls the modal issues to the identity provider, in issue order. -/
inductive AuthEffect
  | createUser (email password : String)
  | sendVerification (email : String)
  | signOutCall
  | sendPasswordReset (email : String)
deriving Repr, DecidableEq

/-- User-visible error of the modal: a local form-validation message or a
mapped SDK error code. -/
inductive AuthError
  | formError (msg : String)
  | sdkError (code : String)
deriving Repr, DecidableEq

/-- The mode discriminator of the modal (line 24 of AuthModal.tsx). -/
inductive AuthMode
  | default
  | forgotPassword
  | resetSent
  | verificationSent
deriving Repr, DecidableEq

/-- State of the authentication modal that the handlers read and write,
plus the two navigation observables: whether onClose was called and the
value assigned to window.location.hash. -/
structure AuthState where
  mode : AuthMode
  error : Option AuthError
  isLoading : Bool
  modalClosed : Bool
  navigatedTo : Option String
deriving Repr, DecidableEq

/-- Result of running a handler: the final modal state and the identity
calls it issued. -/
structure AuthResult where
  state : AuthState
  effects : List AuthEffect
deriving Repr, DecidableEq

/-- Shallow embedding of handleSignUp (AuthModal.tsx lines 48-72).  The
createUser argument is the providers response: some user on success, none
when createUserWithEmailAndPassword throws with the given code. -/
def handleSignUp (created : Option AuthUser) (errCode : String)
    (email password : String) (s : AuthState) : AuthResult :=
  let s1 : AuthState := { s with error := none, isLoading := true }
  if email = "" ∨ password = "" then
    let s2 : AuthState :=
      { s1 with error := some (.formError "Please fill in all required fields."),
                isLoading := false }
    { state := s2, effects := [] }
  else
    match created with
    | none =>
      let s2 : AuthState :=
        { s1 with error := some (.sdkError errCode), isLoading := false }
      { state := s2, effects := [.createUser email password] }
    | some u =>
      let s2 : AuthState := { s1 with mode := .verificationSent, isLoading := false }
      { state := s2,
        effects := [.createUser email password, .sendVerification u.email,
                    .signOutCall] }

/-- Shallow embedding of handleSignIn (AuthModal.tsx lines 74-106).  The
signedIn argument is the providers response to
signInWithEmailAndPassword: some user on success, none when it throws. -/
def handleSignIn (signedIn : Option AuthUser) (errCode : String)
    (email password : String) (s : AuthState) : AuthResult :=
  let s1 : AuthState := { s with error := none, isLoading := true }
  if email = "" ∨ password = "" then
    let s2 : AuthState :=
      { s1 with error := some (.formError "Please enter both email and password."),
                isLoading := false }
    { state := s2, effects := [] }
  else
    match signedIn with
    | none =>
      let s2 : AuthState :=
        { s1 with error := some (.sdkError errCode), isLoading := false }
      { state := s2, effects := [] }
    | some u =>
      if u.emailVerified then
        let s2 : AuthState :=
          { s1 with modalClosed := true, navigatedTo := some "#/dashboard",
                    isLoading := false }
        { state := s2, effects := [] }
      else
        let s2 : AuthState := { s1 with mode := .verificationSent, isLoading := false }
        { state := s2, effects := [.sendVerification u.email, .signOutCall] }

/-- Shallow embedding of handleGoogleSignIn (AuthModal.tsx lines 108-138).
The popup argument is the result of signInWithPopup: some user on success,
none when the popup throws. -/
def handleGoogleSignIn (popup : Option AuthUser) (errCode : String)
    (s : AuthState) : AuthResult :=
  let s1 : AuthState := { s with error := none, isLoading := true }
  match popup with
  | none =>
    let e : Option AuthError :=
      if errCode = "auth/popup-closed-by-user" then none
      else some (.sdkError errCode)
    let s2 : AuthState := { s1 with error := e, isLoading := false }
    { state := s2, effects := [] }
  | some u =>
    if u.emailVerified then
      let s2 : AuthState :=
        { s1 with modalClosed := true, navigatedTo := some "#/dashboard",
                  isLoading := false }
      { state := s2, effects := [] }
    else
      let s2 : AuthState := { s1 with mode := .verificationSent, isLoading := false }
      { state := s2, effects := [.sendVerification u.email, .signOutCall] }

/-- Session semantics of the identity calls: createUser signs the fresh
unverified user in, signOut clears the session, the mail-sending calls do
not change the session. -/
def applyAuthEffects (cu : Option AuthUser) : List AuthEffect → Option AuthUser
  | [] => cu
  | .createUser e _ :: rest => applyAuthEffects (some { email := e, emailVerified := false }) rest
  | .sendVerification _ :: rest => applyAuthEffects cu rest
  | .signOutCall :: rest => applyAuthEffects none rest
  | .sendPasswordReset _ :: rest => applyAuthEffects cu rest

/- ### Concrete demonstration values used by the witness theorems -/

/-- A sample file record for building concrete states. -/
def demoFile (i : String) : FileItem :=
  { id := i, name := "f" ++ i, size := 10, type := "text/plain",
    folderId := none, storagePath := "user_uploads/u1/" ++ i,
    downloadURL := "https://example.com/" ++ i, createdAt := 1 }

/-- A concrete dashboard state whose local files array holds five items,
with the file-creation modal open and a file selected. -/
def demoFullState : DashState :=
  { user := some "u1",
    folders := [], files := [demoFile "1", demoFile "2", demoFile "3",
                             demoFile "4", demoFile "5"],
    notes := [], members := [],
    currentFolderId := some "fold1", searchQuery := "",
    modalOpen := some ModalType.file, deleteConfirmation := none,
    selectedFile := some { name := "new.txt", size := 7, type := "text/plain" },
    formData := FormData.empty, isUpgradeModalOpen := false,
    isSubmitting := false, uploadProgress := 0,
    remote := { folders := [], files := [], notes := [], members := [] },
    blobs := [] }

/-- A concrete create environment. -/
def demoEnv : CreateEnv :=
  { docId := "d9", fileId := "f9", now := 9,
    downloadURL := "https://example.com/d9", uploadOk := true }

end VaultFlow

namespace VaultFlow

/-- C1: once the local per-user file count has reached FILE_LIMIT (five),
submitting the file-creation form opens the upgrade modal and performs no
blob upload and no document write, whatever the current folder is, and
leaves the four local collections unchanged. -/
theorem file_limit_blocks_creation (env : CreateEnv) (s : DashState)
    (uid : String) (sf : SelectedFile)
    (hu : s.user = some uid) (hm : s.modalOpen = some ModalType.file)
    (hf : s.selectedFile = some sf) (hl : hasReachedLimit s = true) :
    FILE_LIMIT = 5 ∧
    (handleCreate env s).isUpgradeModalOpen = true ∧
    (handleCreate env s).blobs = s.blobs ∧
    (handleCreate env s).remote = s.remote ∧
    (handleCreate env s).folders = s.folders ∧
    (handleCreate env s).files = s.files ∧
    (handleCreate env s).notes = s.notes ∧
    (handleCreate env s).members = s.members := by
  have hres : handleCreate env s =
      { s with isSubmitting := false, isUpgradeModalOpen := true } := by
    unfold handleCreate
    rw [hu, hm]
    simp only [hf]
    have hl2 : FILE_LIMIT ≤ s.files.length := by
      simpa [hasReachedLimit] using hl
    simp [hasReachedLimit, hl2]
  rw [hres]
  exact ⟨rfl, rfl, rfl, rfl, rfl, rfl, rfl, rfl⟩

/-- C1 witness: the blocking behaviour evaluated at a concrete state with
five files. -/
theorem file_limit_blocks_creation_witness :
    FILE_LIMIT = 5 ∧
    (handleCreate demoEnv demoFullState).isUpgradeModalOpen = true ∧
    (handleCreate demoEnv demoFullState).blobs = demoFullState.blobs ∧
    (handleCreate demoEnv demoFullState).remote = demoFullState.remote ∧
    (handleCreate demoEnv demoFullState).folders = demoFullState.folders ∧
    (handleCreate demoEnv demoFullState).files = demoFullState.files ∧
    (handleCreate demoEnv demoFullState).notes = demoFullState.notes ∧
    (handleCreate demoEnv demoFullState).members = demoFullState.members :=
  file_limit_blocks_creation demoEnv demoFullState "u1"
    { name := "new.txt", size := 7, type := "text/plain" }
    (by decide) (by decide) (by decide) (by decide)

/-- C9: a folder created with an empty name field is stored under the name
Untitled Folder, a note created with an empty title field is stored under
the title Untitled Note, and all other submitted attributes (non-empty
names and titles, and the note content) are stored exactly as entered. -/
theorem create_empty_field_defaults (env : CreateEnv) (s : DashState)
    (uid : String) (hu : s.user = some uid) :
    (s.modalOpen = some ModalType.folder → s.formData.name = "" →
      (handleCreate env s).remote.folders = s.remote.folders ++
        [{ id := env.docId, name := "Untitled Folder", createdAt := env.now }]) ∧
    (s.modalOpen = some ModalType.folder → s.formData.name ≠ "" →
      (handleCreate env s).remote.folders = s.remote.folders ++
        [{ id := env.docId, name := s.formData.name, createdAt := env.now }]) ∧
    (s.modalOpen = some ModalType.note → s.formData.title = "" →
      (handleCreate env s).remote.notes = s.remote.notes ++
        [{ id := env.docId, title := "Untitled Note",
           content := s.formData.content, createdAt := env.now }]) ∧
    (s.modalOpen = some ModalType.note → s.formData.title ≠ "" →
      (handleCreate env s).remote.notes = s.remote.notes ++
        [{ id := env.docId, title := s.formData.title,
           content := s.formData.content, createdAt := env.now }]) := by
  refine ⟨?_, ?_, ?_, ?_⟩ <;> intro hm he <;>
    (unfold handleCreate; rw [hu, hm]; simp [strOr, he, finishCreate])

/-- C9 witness: the defaults evaluated on a concrete empty-name folder
submission. -/
theorem create_empty_field_defaults_witness :
    (handleCreate demoEnv
        { demoFullState with modalOpen := some ModalType.folder }).remote.folders =
      ({ demoFullState with modalOpen := some ModalType.folder } : DashState).remote.folders
        ++ [{ id := "d9", name := "Untitled Folder", createdAt := 9 }] :=
  (create_empty_field_defaults demoEnv
      { demoFullState with modalOpen := some ModalType.folder } "u1"
      (by decide)).1 (by decide) (by decide)

/-- Helper: the live handleCreate of part_000 leaves the four local
collection arrays untouched, in every branch. -/
theorem handleCreate_local_frame (env : CreateEnv) (s : DashState) :
    (handleCreate env s).folders = s.folders ∧
    (handleCreate env s).files = s.files ∧
    (handleCreate env s).notes = s.notes ∧
    (handleCreate env s).members = s.members := by
  unfold handleCreate
  rcases hu : s.user with _ | uid
  · exact ⟨rfl, rfl, rfl, rfl⟩
  · rcases hm : s.modalOpen with _ | mt
    · exact ⟨rfl, rfl, rfl, rfl⟩
    · cases mt
      case folder => simp [finishCreate]
      case note => simp [finishCreate]
      case member => simp [finishCreate]
      case file =>
        rcases hsf : s.selectedFile with _ | sf
        · simp [hsf]
        · simp only [hsf]
          split
          · simp
          · split <;> simp [finishCreate]

/-- Helper: confirmDeletion of part_000 leaves the four local collection
arrays untouched, in every branch. -/
theorem confirmDeletion_local_frame (env : DeleteEnv) (s : DashState) :
    ((confirmDeletion env s).1).folders = s.folders ∧
    ((confirmDeletion env s).1).files = s.files ∧
    ((confirmDeletion env s).1).notes = s.notes ∧
    ((confirmDeletion env s).1).members = s.members := by
  unfold confirmDeletion
  rcases hu : s.user with _ | uid
  · exact ⟨rfl, rfl, rfl, rfl⟩
  · rcases hd : s.deleteConfirmation with _ | dc
    · exact ⟨rfl, rfl, rfl, rfl⟩
    · rcases dc with ⟨i, t, n, sp⟩
      cases t <;> rcases sp with _ | p <;>
        cases hb : env.blobDelete <;> cases hdoc : env.docDelete <;>
        simp [hb, hdoc, RemoteDB.deleteRecord]

/-- A concrete mock-dashboard environment. -/
def mockEnvDemo : MockEnv := { id := "m1", now := 50 }

/-- A concrete mock-dashboard state with the folder modal open. -/
def mockStateDemo : MockState :=
  { folders := [], files := [], modalOpen := some MockModalType.folder,
    currentFolder := none, newItemName := "Reports", selectedFile := none,
    isSubmitting := false }

/-- C8 counterexample: in the mock dashboard of src/pages/Dashboard.tsx,
one concrete folder submission changes the local folders array directly,
with no subscription involved, refuting the claim that no create handler
of the repository ever writes the local collection arrays. -/
theorem mock_create_mutates_local_folders :
    (mockHandleCreate mockEnvDemo mockStateDemo).folders ≠ mockStateDemo.folders := by
  decide

/-- C8 amended: in the live dashboard of src/unnamed/part_000, the create
and delete handlers never write the local folders, files, notes or members
arrays, so there the displayed collections change only through the
snapshot subscriptions; the mock dashboard of src/pages/Dashboard.tsx,
however, prepends created items to its local arrays directly. -/
theorem live_handlers_never_write_local_collections (env : CreateEnv)
    (denv : DeleteEnv) (s t : DashState) :
    (handleCreate env s).folders = s.folders ∧
    (handleCreate env s).files = s.files ∧
    (handleCreate env s).notes = s.notes ∧
    (handleCreate env s).members = s.members ∧
    ((confirmDeletion denv t).1).folders = t.folders ∧
    ((confirmDeletion denv t).1).files = t.files ∧
    ((confirmDeletion denv t).1).notes = t.notes ∧
    ((confirmDeletion denv t).1).members = t.members := by
  obtain ⟨h1, h2, h3, h4⟩ := handleCreate_local_frame env s
  obtain ⟨g1, g2, g3, g4⟩ := confirmDeletion_local_frame denv t
  exact ⟨h1, h2, h3, h4, g1, g2, g3, g4⟩

/-- C3: when the blob-store delete fails during a confirmed file deletion,
control jumps to the catch block before deleteDoc runs, so the whole remote
document store, the file record included, is left unchanged and the only
remote call issued was the blob deletion. -/
theorem blob_delete_failure_keeps_record (env : DeleteEnv) (s : DashState)
    (uid : String) (dc : DeleteConfirmation) (p : String)
    (hu : s.user = some uid) (hd : s.deleteConfirmation = some dc)
    (ht : dc.target = DeleteTarget.files) (hp : dc.storagePath = some p)
    (hb : env.blobDelete = CallOutcome.err) :
    ((confirmDeletion env s).1).remote = s.remote ∧
    ((confirmDeletion env s).1).blobs = s.blobs ∧
    (confirmDeletion env s).2 = [DeleteEffect.deleteBlob p] := by
  rcases dc with ⟨i, t, n, sp⟩
  cases ht
  cases hp
  unfold confirmDeletion
  rw [hu, hd]
  simp [hb]

/-- A concrete delete confirmation for the file with id 1. -/
def demoFileConfirm : DeleteConfirmation :=
  { id := "1", target := DeleteTarget.files, name := "f1",
    storagePath := some "user_uploads/u1/1" }

/-- A concrete state with the file-delete confirmation shown. -/
def c3State : DashState :=
  { demoFullState with deleteConfirmation := some demoFileConfirm }

/-- The delete environment in which the blob deletion fails. -/
def envBlobErr : DeleteEnv :=
  { blobDelete := CallOutcome.err, docDelete := CallOutcome.ok }

/-- C3 witness: the failed blob deletion evaluated at a concrete state. -/
theorem blob_delete_failure_keeps_record_witness :
    ((confirmDeletion envBlobErr c3State).1).remote = c3State.remote ∧
    ((confirmDeletion envBlobErr c3State).1).blobs = c3State.blobs ∧
    (confirmDeletion envBlobErr c3State).2
        = [DeleteEffect.deleteBlob "user_uploads/u1/1"] :=
  blob_delete_failure_keeps_record envBlobErr c3State "u1" demoFileConfirm
    "user_uploads/u1/1" (by decide) (by decide) (by decide) (by decide) (by decide)

/-- C4: a confirmed file deletion issues the blob deletion first and the
record deletion second; after a successful blob deletion the blob is gone,
and if the record deletion then fails there is no rollback: the record
stays in the store while its blob is already deleted. -/
theorem file_delete_blob_first_no_rollback (env : DeleteEnv) (s : DashState)
    (uid : String) (dc : DeleteConfirmation) (p : String)
    (hu : s.user = some uid) (hd : s.deleteConfirmation = some dc)
    (ht : dc.target = DeleteTarget.files) (hp : dc.storagePath = some p)
    (hb : env.blobDelete = CallOutcome.ok) :
    (confirmDeletion env s).2 = [DeleteEffect.deleteBlob p,
                                 DeleteEffect.deleteRecord "files" dc.id] ∧
    ((confirmDeletion env s).1).blobs = s.blobs.filter (fun q => q ≠ p) ∧
    (env.docDelete = CallOutcome.ok →
      ((confirmDeletion env s).1).remote.files =
        s.remote.files.filter (fun d => d.id ≠ dc.id)) ∧
    (env.docDelete = CallOutcome.err →
      ((confirmDeletion env s).1).remote = s.remote) := by
  rcases dc with ⟨i, t, n, sp⟩
  cases ht
  cases hp
  unfold confirmDeletion
  rw [hu, hd]
  cases hdoc : env.docDelete <;>
    simp [hb, hdoc, RemoteDB.deleteRecord, DeleteTarget.collName]

/-- A concrete remote store holding the record of file 1. -/
def c4Remote : RemoteDB :=
  { folders := [], files := [demoFile "1"], notes := [], members := [] }

/-- A concrete state in which file 1 has a blob and a record and its
deletion is confirmed. -/
def c4State : DashState :=
  { demoFullState with deleteConfirmation := some demoFileConfirm,
                       blobs := ["user_uploads/u1/1"], remote := c4Remote }

/-- The delete environment in which the record deletion fails after the
blob deletion succeeded. -/
def envDocErr : DeleteEnv :=
  { blobDelete := CallOutcome.ok, docDelete := CallOutcome.err }

/-- C4 witness: the ordering and the rollback-free failure evaluated at a
concrete state in which deleteDoc fails after the blob was removed. -/
theorem file_delete_blob_first_no_rollback_witness :
    (confirmDeletion envDocErr c4State).2
        = [DeleteEffect.deleteBlob "user_uploads/u1/1",
           DeleteEffect.deleteRecord "files" "1"] ∧
    ((confirmDeletion envDocErr c4State).1).blobs
        = c4State.blobs.filter (fun q => q ≠ "user_uploads/u1/1") ∧
    ((confirmDeletion envDocErr c4State).1).remote = c4State.remote := by
  have h := file_delete_blob_first_no_rollback envDocErr c4State "u1"
    demoFileConfirm "user_uploads/u1/1"
    (by decide) (by decide) (by decide) (by decide) (by decide)
  exact ⟨h.1, h.2.1, h.2.2.2 (by decide)⟩

/-- C10: a confirmed folder deletion removes only the folder document
itself; the remote files (their records and blobs), notes and members are
untouched, so every file whose folderId references the deleted folder
persists with its dangling reference. -/
theorem folder_delete_no_cascade (env : DeleteEnv) (s : DashState)
    (uid : String) (dc : DeleteConfirmation)
    (hu : s.user = some uid) (hd : s.deleteConfirmation = some dc)
    (ht : dc.target = DeleteTarget.folders)
    (hdoc : env.docDelete = CallOutcome.ok) :
    ((confirmDeletion env s).1).remote.folders =
      s.remote.folders.filter (fun d => d.id ≠ dc.id) ∧
    ((confirmDeletion env s).1).remote.files = s.remote.files ∧
    ((confirmDeletion env s).1).remote.notes = s.remote.notes ∧
    ((confirmDeletion env s).1).remote.members = s.remote.members ∧
    ((confirmDeletion env s).1).blobs = s.blobs ∧
    (confirmDeletion env s).2 = [DeleteEffect.deleteRecord "folders" dc.id] ∧
    (∀ f ∈ s.remote.files, f.folderId = some dc.id →
      f ∈ ((confirmDeletion env s).1).remote.files) := by
  rcases dc with ⟨i, t, n, sp⟩
  cases ht
  unfold confirmDeletion
  rw [hu, hd]
  rcases sp with _ | p <;>
    simp [hdoc, RemoteDB.deleteRecord, DeleteTarget.collName] <;>
    exact fun f hf _ => hf

/-- A concrete file record that lives inside folder fold1. -/
def fileInFolder : FileItem :=
  { demoFile "1" with folderId := some "fold1" }

/-- A concrete delete confirmation for the folder fold1. -/
def demoFolderConfirm : DeleteConfirmation :=
  { id := "fold1", target := DeleteTarget.folders, name := "Plans",
    storagePath := none }

/-- A concrete remote store with folder fold1 and one file inside it. -/
def c10Remote : RemoteDB :=
  { folders := [{ id := "fold1", name := "Plans", createdAt := 2 }],
    files := [fileInFolder], notes := [], members := [] }

/-- A concrete state in which the deletion of folder fold1 is confirmed. -/
def c10State : DashState :=
  { demoFullState with deleteConfirmation := some demoFolderConfirm,
                       remote := c10Remote }

/-- The delete environment in which every remote call succeeds. -/
def envAllOk : DeleteEnv :=
  { blobDelete := CallOutcome.ok, docDelete := CallOutcome.ok }

/-- C10 witness: the cascade-free folder deletion evaluated at a concrete
state holding a file that references the deleted folder. -/
theorem folder_delete_no_cascade_witness :
    ((confirmDeletion envAllOk c10State).1).remote.files = c10State.remote.files ∧
    fileInFolder ∈ ((confirmDeletion envAllOk c10State).1).remote.files ∧
    ((confirmDeletion envAllOk c10State).1).remote.folders = [] := by
  have h := folder_delete_no_cascade envAllOk c10State "u1" demoFolderConfirm
    (by decide) (by decide) (by decide) (by decide)
  refine ⟨h.2.1, h.2.2.2.2.2.2 fileInFolder (by decide) (by decide), ?_⟩
  rw [h.1]
  decide

/-- C2: a sign-in attempt, by password or by the federated popup, that
authenticates a user whose email is unverified never closes the modal and
never sets the dashboard route; it issues a fresh verification email
followed by a sign-out, ends in the verification-sent mode, and the issued
calls leave no signed-in session. -/
theorem unverified_signin_never_reaches_dashboard (u : AuthUser)
    (errCode email password : String) (s : AuthState)
    (he : email ≠ "") (hp : password ≠ "")
    (hv : u.emailVerified = false) :
    ((handleSignIn (some u) errCode email password s).state.modalClosed = s.modalClosed ∧
     (handleSignIn (some u) errCode email password s).state.navigatedTo = s.navigatedTo ∧
     (handleSignIn (some u) errCode email password s).effects =
       [AuthEffect.sendVerification u.email, AuthEffect.signOutCall] ∧
     (handleSignIn (some u) errCode email password s).state.mode = AuthMode.verificationSent ∧
     applyAuthEffects (some u) (handleSignIn (some u) errCode email password s).effects = none) ∧
    ((handleGoogleSignIn (some u) errCode s).state.modalClosed = s.modalClosed ∧
     (handleGoogleSignIn (some u) errCode s).state.navigatedTo = s.navigatedTo ∧
     (handleGoogleSignIn (some u) errCode s).effects =
       [AuthEffect.sendVerification u.email, AuthEffect.signOutCall] ∧
     (handleGoogleSignIn (some u) errCode s).state.mode = AuthMode.verificationSent ∧
     applyAuthEffects (some u) (handleGoogleSignIn (some u) errCode s).effects = none) := by
  constructor <;>
    simp [handleSignIn, handleGoogleSignIn, applyAuthEffects, he, hp, hv]

/-- A concrete unverified user. -/
def demoUnverified : AuthUser := { email := "a@b.co", emailVerified := false }

/-- The initial state of the authentication modal as reset on open. -/
def authInit : AuthState :=
  { mode := AuthMode.default, error := none, isLoading := false,
    modalClosed := false, navigatedTo := none }

/-- C2 witness: the unverified sign-in evaluated at a concrete user and the
initial modal state. -/
theorem unverified_signin_never_reaches_dashboard_witness :
    ((handleSignIn (some demoUnverified) "" "a@b.co" "pw" authInit).state.modalClosed
        = authInit.modalClosed ∧
     (handleSignIn (some demoUnverified) "" "a@b.co" "pw" authInit).state.navigatedTo
        = authInit.navigatedTo ∧
     (handleSignIn (some demoUnverified) "" "a@b.co" "pw" authInit).effects =
       [AuthEffect.sendVerification demoUnverified.email, AuthEffect.signOutCall] ∧
     (handleSignIn (some demoUnverified) "" "a@b.co" "pw" authInit).state.mode
        = AuthMode.verificationSent ∧
     applyAuthEffects (some demoUnverified)
        (handleSignIn (some demoUnverified) "" "a@b.co" "pw" authInit).effects = none) ∧
    ((handleGoogleSignIn (some demoUnverified) "" authInit).state.modalClosed
        = authInit.modalClosed ∧
     (handleGoogleSignIn (some demoUnverified) "" authInit).state.navigatedTo
        = authInit.navigatedTo ∧
     (handleGoogleSignIn (some demoUnverified) "" authInit).effects =
       [AuthEffect.sendVerification demoUnverified.email, AuthEffect.signOutCall] ∧
     (handleGoogleSignIn (some demoUnverified) "" authInit).state.mode
        = AuthMode.verificationSent ∧
     applyAuthEffects (some demoUnverified)
        (handleGoogleSignIn (some demoUnverified) "" authInit).effects = none) :=
  unverified_signin_never_reaches_dashboard demoUnverified "" "a@b.co" "pw"
    authInit (by decide) (by decide) (by decide)

/-- C7: a successful sign-up with non-empty email and password issues
exactly the sequence create account, send verification email to the new
user, sign out; it ends in the verification-sent mode and the issued calls
leave no signed-in session. -/
theorem signup_creates_verifies_signs_out (u : AuthUser)
    (errCode email password : String) (s : AuthState)
    (he : email ≠ "") (hp : password ≠ "") :
    (handleSignUp (some u) errCode email password s).effects =
      [AuthEffect.createUser email password, AuthEffect.sendVerification u.email,
       AuthEffect.signOutCall] ∧
    (handleSignUp (some u) errCode email password s).state.mode
      = AuthMode.verificationSent ∧
    applyAuthEffects none (handleSignUp (some u) errCode email password s).effects
      = none := by
  simp [handleSignUp, applyAuthEffects, he, hp]

/-- C7 witness: the sign-up sequence evaluated at a concrete user. -/
theorem signup_creates_verifies_signs_out_witness :
    (handleSignUp (some demoUnverified) "" "a@b.co" "pw" authInit).effects =
      [AuthEffect.createUser "a@b.co" "pw",
       AuthEffect.sendVerification demoUnverified.email, AuthEffect.signOutCall] ∧
    (handleSignUp (some demoUnverified) "" "a@b.co" "pw" authInit).state.mode
      = AuthMode.verificationSent ∧
    applyAuthEffects none
      (handleSignUp (some demoUnverified) "" "a@b.co" "pw" authInit).effects = none :=
  signup_creates_verifies_signs_out demoUnverified "" "a@b.co" "pw" authInit
    (by decide) (by decide)

/-- A concrete note whose title does not contain the concrete query. -/
def alphaNote : NoteItem :=
  { id := "n1", title := "Alpha", content := "c", createdAt := 4 }

/-- A concrete state on the notes tab with a non-matching search query. -/
def c5State : DashState :=
  { demoFullState with notes := [alphaNote], searchQuery := "zzz" }

/-- C5: the notes tab renders the notes array itself and ignores the search
query: at a concrete state whose single note does not match the query, the
note is still displayed, whereas the spec-modelled case-insensitive title
filter yields the empty list.  The search input bound to the notes tab
shows that filtering the notes was intended, so this is a defect of the
code rather than of the claim. -/
theorem notes_search_filter_not_applied :
    displayedNotes c5State = [alphaNote] ∧
    includesCI alphaNote.title c5State.searchQuery = false ∧
    specFilteredNotes c5State = [] := by
  refine ⟨rfl, ?_, ?_⟩ <;> decide

/-- C6: every document returned by any of the four listener queries lives
under the collection path of the signed-in user, the result is ordered by
creation time descending, and it is exactly a reordering of the documents
of that path. -/
theorem listener_scoped_to_user_and_sorted (store : List StoredDoc)
    (uid : String) (k : EntityKind) :
    (∀ d ∈ listenerQuery store uid k,
       d.collPath = basePath uid ++ "/" ++ EntityKind.collName k) ∧
    List.Sorted byCreatedAtDesc (listenerQuery store uid k) ∧
    List.Perm (listenerQuery store uid k)
      (store.filter (fun d =>
        d.collPath = basePath uid ++ "/" ++ EntityKind.collName k)) := by
  refine ⟨?_, ?_, ?_⟩
  · intro d hd
    rw [listenerQuery, runQuery, List.mem_insertionSort] at hd
    exact of_decide_eq_true (List.mem_filter.mp hd).2
  · rw [listenerQuery, runQuery]
    exact List.sorted_insertionSort byCreatedAtDesc _
  · rw [listenerQuery, runQuery]
    exact List.perm_insertionSort byCreatedAtDesc _

/-- A concrete document of user u1. -/
def demoDocMine : StoredDoc :=
  { collPath := "users/u1/folders", id := "a", createdAt := 3 }

/-- A concrete document of another user. -/
def demoDocOther : StoredDoc :=
  { collPath := "users/u2/folders", id := "b", createdAt := 7 }

/-- A concrete backend store holding documents of two users. -/
def demoStore : List StoredDoc := [demoDocOther, demoDocMine]

/-- C6 witness: the scoping fact applied to a concrete store, with the
membership hypothesis discharged by evaluation. -/
theorem listener_scoped_to_user_and_sorted_witness :
    demoDocMine.collPath = basePath "u1" ++ "/" ++ EntityKind.collName EntityKind.folders :=
  (listener_scoped_to_user_and_sorted demoStore "u1" EntityKind.folders).1
    demoDocMine (by decide)

end VaultFlow
